import Mathlib

/-!
# Verification of the terra-fin analytics core

A shallow embedding, over `ℚ`, of the deterministic analytics pipeline of the
`terra-fin` repository: the per-field delta estimator
(`app/pipelines/estimate.py`), the credit scorer (`app/core/score.py`), the
forecast engine (`app/core/forecast.py`), the earnings projector
(`app/core/earnings.py`), the unit normalizer (`app/services/units.py`) and
the heuristic recommendation / offer-ranking component
(`app/services/agent_gemini.py`).

Python floats are idealised as rationals, and Python's builtin `round(x, n)`
is idealised as decimal round-half-to-even on `ℚ`.  Python's `str.strip` /
`str.lower` are modelled by structurally recursive list-of-characters
operations so that all definitions are executable by the kernel.
-/

set_option maxRecDepth 8000

namespace TerraFin

/-! ## Rounding (Python's builtin `round`) -/

/-- Round a rational to the nearest integer, ties going to the even integer
(the tie-breaking rule of Python's builtin `round`). -/
def rhe (q : ℚ) : ℤ :=
  if q - (⌊q⌋ : ℚ) < 1 / 2 then ⌊q⌋
  else if 1 / 2 < q - (⌊q⌋ : ℚ) then ⌊q⌋ + 1
  else if ⌊q⌋ % 2 = 0 then ⌊q⌋ else ⌊q⌋ + 1

/-- Python's `round(q, n)` (round to `n` decimal digits, ties to even),
idealised over `ℚ`. -/
def rndTo (n : ℕ) (q : ℚ) : ℚ :=
  (rhe (q * (10 : ℚ) ^ n) : ℚ) / (10 : ℚ) ^ n

theorem rhe_bounds (q : ℚ) : ⌊q⌋ ≤ rhe q ∧ rhe q ≤ ⌊q⌋ + 1 := by
  unfold rhe
  split_ifs <;> omega

theorem rhe_mono {x y : ℚ} (h : x ≤ y) : rhe x ≤ rhe y := by
  have hf : ⌊x⌋ ≤ ⌊y⌋ := Int.floor_le_floor h
  rcases lt_or_eq_of_le hf with hlt | heq
  · have h1 := (rhe_bounds x).2
    have h2 := (rhe_bounds y).1
    omega
  · have hr : x - (⌊x⌋ : ℚ) ≤ y - (⌊x⌋ : ℚ) := by linarith
    unfold rhe
    rw [← heq]
    split_ifs <;> first | omega | linarith

theorem rhe_intCast (m : ℤ) : rhe (m : ℚ) = m := by
  unfold rhe
  rw [Int.floor_intCast]
  norm_num

theorem rndTo_mono (n : ℕ) {x y : ℚ} (h : x ≤ y) : rndTo n x ≤ rndTo n y := by
  unfold rndTo
  have hp : (0 : ℚ) < (10 : ℚ) ^ n := by positivity
  have hm : rhe (x * (10 : ℚ) ^ n) ≤ rhe (y * (10 : ℚ) ^ n) :=
    rhe_mono (mul_le_mul_of_nonneg_right h (le_of_lt hp))
  have hm' : ((rhe (x * (10 : ℚ) ^ n) : ℤ) : ℚ) ≤ ((rhe (y * (10 : ℚ) ^ n) : ℤ) : ℚ) := by
    exact_mod_cast hm
  gcongr

theorem rndTo_intCast (n : ℕ) (m : ℤ) : rndTo n (m : ℚ) = m := by
  unfold rndTo
  have h : ((m : ℚ) * (10 : ℚ) ^ n) = ((m * 10 ^ n : ℤ) : ℚ) := by push_cast; ring
  rw [h, rhe_intCast]
  push_cast
  field_simp

theorem rndTo_nonneg (n : ℕ) {q : ℚ} (h : 0 ≤ q) : 0 ≤ rndTo n q := by
  have h0 : rndTo n ((0 : ℤ) : ℚ) = ((0 : ℤ) : ℚ) := rndTo_intCast n 0
  have := rndTo_mono n (by simpa using h : ((0 : ℤ) : ℚ) ≤ q)
  rw [h0] at this
  simpa using this

theorem rndTo_eval_lt (n : ℕ) (q c : ℚ) (f : ℤ) (hf : ⌊q * (10 : ℚ) ^ n⌋ = f)
    (hr : q * (10 : ℚ) ^ n - (f : ℚ) < 1 / 2) (hc : (f : ℚ) / (10 : ℚ) ^ n = c) :
    rndTo n q = c := by
  unfold rndTo rhe
  rw [hf, if_pos hr]
  exact hc

theorem rndTo_eval_gt (n : ℕ) (q c : ℚ) (f : ℤ) (hf : ⌊q * (10 : ℚ) ^ n⌋ = f)
    (hr : 1 / 2 < q * (10 : ℚ) ^ n - (f : ℚ)) (hc : ((f + 1 : ℤ) : ℚ) / (10 : ℚ) ^ n = c) :
    rndTo n q = c := by
  unfold rndTo rhe
  rw [hf, if_neg (by linarith), if_pos hr]
  exact hc

/-! ## String helpers (Python `str.strip` / `str.lower`) -/

/-- Python's `str.strip()` (drop leading and trailing whitespace), written
with structural recursion over the character list. -/
def pyStrip (s : String) : String :=
  ⟨((s.data.dropWhile Char.isWhitespace).reverse.dropWhile Char.isWhitespace).reverse⟩

/-- Python's `str.lower()` (per-character lowercasing). -/
def pyLower (s : String) : String := ⟨s.data.map Char.toLower⟩

/-- `_clean(s).lower()` as used throughout `estimate.py` and
`agent_gemini.py`: strip surrounding whitespace, then lowercase. -/
def cleanLower (s : String) : String := pyLower (pyStrip s)

/-! ## Delta estimator (`app/pipelines/estimate.py`) -/

/-- One `management_events.csv` row, as the estimator sees it.  `amount` is
`none` when the CSV cell is missing, empty, or unparseable: in all of those
cases `sum_amount_for_type` in the source adds `0` for the event. -/
structure MgmtEvent where
  event_type : String
  amount : Option ℚ
deriving DecidableEq

/-- `count_type` from `estimate_season_delta_tco2e`: the number of events
whose cleaned, lowercased `event_type` equals the (lowercased) tag. -/
def countType (events : List MgmtEvent) (t : String) : ℕ :=
  events.countP (fun e => cleanLower e.event_type == pyLower t)

/-- `sum_amount_for_type` from `estimate_season_delta_tco2e`: the sum of the
parseable `amount`s over the events of the given type. -/
def sumAmountForType (events : List MgmtEvent) (t : String) : ℚ :=
  ((events.filter (fun e => cleanLower e.event_type == pyLower t)).map
    (fun e => e.amount.getD 0)).sum

/-- `_data_quality_score`: +0.3 fertilizer present, +0.3 tillage present,
+0.2 irrigation present, +0.2 when the season has at least 4 events,
capped at 1. -/
def _data_quality_score (season_events : List MgmtEvent) : ℚ :=
  let types := season_events.map (fun e => cleanLower e.event_type)
  min 1 ((if types.contains "fertilizer" then 3/10 else 0) +
    ((if types.contains "tillage" then 3/10 else 0) +
      ((if types.contains "irrigation" then 2/10 else 0) +
        (if 4 ≤ season_events.length then 2/10 else 0))))

/-- The tillage term added to `delta` in `estimate_season_delta_tco2e`
(`0.10 tCO2e` per hectare per avoided tillage pass; zero when the project
season does not have strictly fewer tillage events). -/
def tillage_component (area_ha : ℚ) (be pe : List MgmtEvent) : ℚ :=
  if countType pe "tillage" < countType be "tillage" then
    ((countType be "tillage" : ℚ) - (countType pe "tillage" : ℚ)) * (1/10) * max area_ha 0
  else 0

/-- The fertilizer term added to `delta` in `estimate_season_delta_tco2e`.
Note that the source multiplies by `max(area_ha, 1e-9)` here, unlike the
other two components, which use `max(area_ha, 0.0)`. -/
def fertilizer_component (area_ha : ℚ) (be pe : List MgmtEvent) : ℚ :=
  if sumAmountForType pe "fertilizer" < sumAmountForType be "fertilizer" then
    (sumAmountForType be "fertilizer" - sumAmountForType pe "fertilizer") * (5/1000) *
      max area_ha (1/1000000000)
  else 0

/-- The irrigation term added to `delta` in `estimate_season_delta_tco2e`. -/
def irrigation_component (area_ha : ℚ) (be pe : List MgmtEvent) : ℚ :=
  if countType pe "irrigation" < countType be "irrigation" then
    ((countType be "irrigation" : ℚ) - (countType pe "irrigation" : ℚ)) * (2/100) * max area_ha 0
  else 0

/-- `estimate_season_delta_tco2e` from `app/pipelines/estimate.py`.  Returns
the clamped delta estimate together with the list of assumption tags (the
source joins the tags with commas into one string; the embedding keeps the
exact tags in the exact order in which the source appends them). -/
def estimate_season_delta_tco2e (area_ha : ℚ) (crop_type : String)
    (baseline_events project_events : List MgmtEvent) : ℚ × List String :=
  let delta := tillage_component area_ha baseline_events project_events +
    fertilizer_component area_ha baseline_events project_events +
    irrigation_component area_ha baseline_events project_events
  let tags :=
    (if countType project_events "tillage" < countType baseline_events "tillage" then
      ["reduced_tillage_proxy"] else []) ++
    ((if sumAmountForType project_events "fertilizer" <
        sumAmountForType baseline_events "fertilizer" then
      ["fertilizer_reduction_proxy"] else []) ++
    ((if countType project_events "irrigation" < countType baseline_events "irrigation" then
      ["irrigation_energy_proxy"] else []) ++
    (if cleanLower crop_type = "rice" then ["rice_methane_not_modeled_yet"] else [])))
  (max delta 0, if tags = [] then ["no_detected_changes"] else tags)

theorem tillage_component_eq {area_ha : ℚ} (h : 0 ≤ area_ha) (be pe : List MgmtEvent) :
    tillage_component area_ha be pe =
      max 0 ((countType be "tillage" : ℚ) - (countType pe "tillage" : ℚ)) * (1/10) * area_ha := by
  unfold tillage_component
  rcases lt_or_ge (countType pe "tillage") (countType be "tillage") with hc | hc
  · rw [if_pos hc, max_eq_left h,
      max_eq_right (sub_nonneg.mpr (by exact_mod_cast hc.le))]
  · rw [if_neg (not_lt.mpr hc),
      max_eq_left (sub_nonpos.mpr (by exact_mod_cast hc)), zero_mul, zero_mul]

theorem fertilizer_component_eq (area_ha : ℚ) (be pe : List MgmtEvent) :
    fertilizer_component area_ha be pe =
      max 0 (sumAmountForType be "fertilizer" - sumAmountForType pe "fertilizer") * (5/1000) *
        max area_ha (1/1000000000) := by
  unfold fertilizer_component
  rcases lt_or_ge (sumAmountForType pe "fertilizer") (sumAmountForType be "fertilizer") with hc | hc
  · rw [if_pos hc, max_eq_right (sub_nonneg.mpr hc.le)]
  · rw [if_neg (not_lt.mpr hc), max_eq_left (sub_nonpos.mpr hc), zero_mul, zero_mul]

theorem irrigation_component_eq {area_ha : ℚ} (h : 0 ≤ area_ha) (be pe : List MgmtEvent) :
    irrigation_component area_ha be pe =
      max 0 ((countType be "irrigation" : ℚ) - (countType pe "irrigation" : ℚ)) * (2/100) *
        area_ha := by
  unfold irrigation_component
  rcases lt_or_ge (countType pe "irrigation") (countType be "irrigation") with hc | hc
  · rw [if_pos hc, max_eq_left h,
      max_eq_right (sub_nonneg.mpr (by exact_mod_cast hc.le))]
  · rw [if_neg (not_lt.mpr hc),
      max_eq_left (sub_nonpos.mpr (by exact_mod_cast hc)), zero_mul, zero_mul]

theorem estimate_fst (area_ha : ℚ) (crop : String) (be pe : List MgmtEvent) :
    (estimate_season_delta_tco2e area_ha crop be pe).1 =
      max (tillage_component area_ha be pe + fertilizer_component area_ha be pe +
        irrigation_component area_ha be pe) 0 := rfl

theorem estimate_fst_nonneg (area_ha : ℚ) (crop : String) (be pe : List MgmtEvent) :
    0 ≤ (estimate_season_delta_tco2e area_ha crop be pe).1 :=
  le_max_right _ _

theorem data_quality_score_mem_Icc (events : List MgmtEvent) :
    _data_quality_score events ∈ Set.Icc (0 : ℚ) 1 := by
  unfold _data_quality_score
  constructor
  · apply le_min (by norm_num)
    split_ifs <;> norm_num
  · exact min_le_left _ _

theorem estimate_snd_mem (area_ha : ℚ) (crop : String) (be pe : List MgmtEvent) :
    ("reduced_tillage_proxy" ∈ (estimate_season_delta_tco2e area_ha crop be pe).2 ↔
      countType pe "tillage" < countType be "tillage") ∧
    ("fertilizer_reduction_proxy" ∈ (estimate_season_delta_tco2e area_ha crop be pe).2 ↔
      sumAmountForType pe "fertilizer" < sumAmountForType be "fertilizer") ∧
    ("irrigation_energy_proxy" ∈ (estimate_season_delta_tco2e area_ha crop be pe).2 ↔
      countType pe "irrigation" < countType be "irrigation") ∧
    ("rice_methane_not_modeled_yet" ∈ (estimate_season_delta_tco2e area_ha crop be pe).2 ↔
      cleanLower crop = "rice") ∧
    ("no_detected_changes" ∈ (estimate_season_delta_tco2e area_ha crop be pe).2 ↔
      (¬ countType pe "tillage" < countType be "tillage" ∧
        ¬ sumAmountForType pe "fertilizer" < sumAmountForType be "fertilizer" ∧
        ¬ countType pe "irrigation" < countType be "irrigation" ∧
        ¬ cleanLower crop = "rice")) := by
  by_cases h1 : countType pe "tillage" < countType be "tillage" <;>
  by_cases h2 : sumAmountForType pe "fertilizer" < sumAmountForType be "fertilizer" <;>
  by_cases h3 : countType pe "irrigation" < countType be "irrigation" <;>
  by_cases h4 : cleanLower crop = "rice" <;>
  simp [estimate_season_delta_tco2e, h1, h2, h3, h4]

/-- C1 (counterexample).  The claim states that the fertilizer reduction is
`max(0, Σbaseline − Σproject) × 0.005 × area_ha` and that, when no component
fires, `no_detected_changes` is appended.  Both parts fail on the code:
with `area_ha = 0` and a baseline fertilizer amount of `200`, the code
multiplies by `max(area_ha, 1e-9) = 1e-9` and returns `mid = 1e-9`, not the
claimed `0`; and for a rice crop with no detected changes the code appends
only `rice_methane_not_modeled_yet`, never `no_detected_changes`. -/
theorem C1_counterexample :
    ((estimate_season_delta_tco2e 0 "corn" [⟨"fertilizer", some 200⟩] []).1 = 1/1000000000 ∧
      ¬ (estimate_season_delta_tco2e 0 "corn" [⟨"fertilizer", some 200⟩] []).1 =
        max 0
          (max 0 ((countType [⟨"fertilizer", some 200⟩] "tillage" : ℚ) -
              (countType ([] : List MgmtEvent) "tillage" : ℚ)) * (1/10) * 0 +
            max 0 (sumAmountForType [⟨"fertilizer", some 200⟩] "fertilizer" -
              sumAmountForType ([] : List MgmtEvent) "fertilizer") * (5/1000) * 0 +
            max 0 ((countType [⟨"fertilizer", some 200⟩] "irrigation" : ℚ) -
              (countType ([] : List MgmtEvent) "irrigation" : ℚ)) * (2/100) * 0)) ∧
    (¬ countType ([] : List MgmtEvent) "tillage" < countType ([] : List MgmtEvent) "tillage" ∧
      ¬ sumAmountForType ([] : List MgmtEvent) "fertilizer" <
        sumAmountForType ([] : List MgmtEvent) "fertilizer" ∧
      ¬ countType ([] : List MgmtEvent) "irrigation" <
        countType ([] : List MgmtEvent) "irrigation") ∧
    "no_detected_changes" ∉ (estimate_season_delta_tco2e 1 "rice" [] []).2 := by
  have hct : countType [⟨"fertilizer", some 200⟩] "tillage" = 0 := by decide
  have hci : countType [⟨"fertilizer", some 200⟩] "irrigation" = 0 := by decide
  have hce : ∀ t : String, countType ([] : List MgmtEvent) t = 0 := fun _ => rfl
  have hse : ∀ t : String, sumAmountForType ([] : List MgmtEvent) t = 0 := fun _ => rfl
  have hsf : sumAmountForType [⟨"fertilizer", some 200⟩] "fertilizer" = 200 := by
    simp [sumAmountForType, List.filter,
      show (cleanLower "fertilizer" == pyLower "fertilizer") = true from by decide]
  have ht0 : tillage_component 0 [⟨"fertilizer", some 200⟩] [] = 0 := by
    rw [tillage_component_eq le_rfl, hct, hce]
    norm_num
  have hf0 : fertilizer_component 0 [⟨"fertilizer", some 200⟩] [] = 1/1000000000 := by
    rw [fertilizer_component_eq, hsf, hse]
    norm_num
  have hi0 : irrigation_component 0 [⟨"fertilizer", some 200⟩] [] = 0 := by
    rw [irrigation_component_eq le_rfl, hci, hce]
    norm_num
  have hmid : (estimate_season_delta_tco2e 0 "corn" [⟨"fertilizer", some 200⟩] []).1 =
      1/1000000000 := by
    rw [estimate_fst, ht0, hf0, hi0]
    norm_num
  refine ⟨⟨hmid, ?_⟩, ⟨by norm_num, by rw [hse]; norm_num, by norm_num⟩, ?_⟩
  · rw [hmid, hct, hci, hce, hse, hsf]
    norm_num
  · rw [(estimate_snd_mem 1 "rice" [] []).2.2.2.2]
    intro hcontra
    exact hcontra.2.2.2 (by decide)

/-- C1 (amended): for every `area_ha ≥ 0`, crop type and pair of event
lists, the delta estimator returns
`mid = max(0, tillage_reduction + fertilizer_reduction + irrigation_reduction)`
where the tillage and irrigation terms are as claimed, but the fertilizer
term is `max(0, Σbaseline − Σproject) × 0.005 × max(area_ha, 1e-9)`
(the source uses the `1e-9` epsilon only for this component); each
component's assumption tag is appended exactly when that component fires,
`rice_methane_not_modeled_yet` is appended exactly when the cleaned crop
type is `"rice"`, and `no_detected_changes` is appended exactly when no
component fired and the crop is not rice. -/
theorem C1_delta_estimator (area_ha : ℚ) (h : 0 ≤ area_ha) (crop_type : String)
    (be pe : List MgmtEvent) :
    (estimate_season_delta_tco2e area_ha crop_type be pe).1 =
      max 0
        (max 0 ((countType be "tillage" : ℚ) - (countType pe "tillage" : ℚ)) * (1/10) * area_ha +
          max 0 (sumAmountForType be "fertilizer" - sumAmountForType pe "fertilizer") * (5/1000) *
            max area_ha (1/1000000000) +
          max 0 ((countType be "irrigation" : ℚ) - (countType pe "irrigation" : ℚ)) * (2/100) *
            area_ha) ∧
    ("reduced_tillage_proxy" ∈ (estimate_season_delta_tco2e area_ha crop_type be pe).2 ↔
      countType pe "tillage" < countType be "tillage") ∧
    ("fertilizer_reduction_proxy" ∈ (estimate_season_delta_tco2e area_ha crop_type be pe).2 ↔
      sumAmountForType pe "fertilizer" < sumAmountForType be "fertilizer") ∧
    ("irrigation_energy_proxy" ∈ (estimate_season_delta_tco2e area_ha crop_type be pe).2 ↔
      countType pe "irrigation" < countType be "irrigation") ∧
    ("rice_methane_not_modeled_yet" ∈ (estimate_season_delta_tco2e area_ha crop_type be pe).2 ↔
      cleanLower crop_type = "rice") ∧
    ("no_detected_changes" ∈ (estimate_season_delta_tco2e area_ha crop_type be pe).2 ↔
      (¬ countType pe "tillage" < countType be "tillage" ∧
        ¬ sumAmountForType pe "fertilizer" < sumAmountForType be "fertilizer" ∧
        ¬ countType pe "irrigation" < countType be "irrigation" ∧
        ¬ cleanLower crop_type = "rice")) := by
  refine ⟨?_, estimate_snd_mem area_ha crop_type be pe⟩
  rw [estimate_fst, tillage_component_eq h, fertilizer_component_eq,
    irrigation_component_eq h, max_comm]

/-- C1 (witness): the amended theorem applied at a concrete input
(`area_ha = 1`, one baseline tillage pass, no project events). -/
theorem C1_delta_estimator_witness :
    (0 : ℚ) ≤ 1 ∧
    (estimate_season_delta_tco2e 1 "corn" [⟨"tillage", none⟩] []).1 =
      max 0
        (max 0 ((countType [⟨"tillage", none⟩] "tillage" : ℚ) -
            (countType ([] : List MgmtEvent) "tillage" : ℚ)) * (1/10) * 1 +
          max 0 (sumAmountForType [⟨"tillage", none⟩] "fertilizer" -
            sumAmountForType ([] : List MgmtEvent) "fertilizer") * (5/1000) *
            max 1 (1/1000000000) +
          max 0 ((countType [⟨"tillage", none⟩] "irrigation" : ℚ) -
            (countType ([] : List MgmtEvent) "irrigation" : ℚ)) * (2/100) * 1) :=
  ⟨by norm_num, (C1_delta_estimator 1 (by norm_num) "corn" [⟨"tillage", none⟩] []).1⟩

/-- The baseline season of the spec's worked example: 2 tillage passes, one
fertilizer application of amount 120, one irrigation event. -/
def exampleBaseline : List MgmtEvent :=
  [⟨"tillage", none⟩, ⟨"tillage", none⟩, ⟨"fertilizer", some 120⟩, ⟨"irrigation", none⟩]

/-- The project season of the spec's worked example: 1 tillage pass, one
fertilizer application of amount 95, one irrigation event. -/
def exampleProject : List MgmtEvent :=
  [⟨"tillage", none⟩, ⟨"fertilizer", some 95⟩, ⟨"irrigation", none⟩]

theorem example_fert_sums :
    sumAmountForType exampleBaseline "fertilizer" = 120 ∧
      sumAmountForType exampleProject "fertilizer" = 95 := by
  constructor <;>
  simp [exampleBaseline, exampleProject, sumAmountForType, List.filter,
    show (cleanLower "fertilizer" == pyLower "fertilizer") = true from by decide,
    show (cleanLower "tillage" == pyLower "fertilizer") = false from by decide,
    show (cleanLower "irrigation" == pyLower "fertilizer") = false from by decide]

theorem example_components :
    tillage_component (2023/100) exampleBaseline exampleProject = 2023/1000 ∧
    fertilizer_component (2023/100) exampleBaseline exampleProject = 2023/800 ∧
    irrigation_component (2023/100) exampleBaseline exampleProject = 0 := by
  have hbt : countType exampleBaseline "tillage" = 2 := by decide
  have hpt : countType exampleProject "tillage" = 1 := by decide
  have hbi : countType exampleBaseline "irrigation" = 1 := by decide
  have hpi : countType exampleProject "irrigation" = 1 := by decide
  refine ⟨?_, ?_, ?_⟩
  · rw [tillage_component_eq (by norm_num), hbt, hpt]
    norm_num
  · rw [fertilizer_component_eq, example_fert_sums.1, example_fert_sums.2]
    norm_num
  · rw [irrigation_component_eq (by norm_num), hbi, hpi]
    norm_num

/-- C2 (counterexample).  On the spec's worked example
(`area_ha = 20.23`, baseline 2 tillage / 120 fertilizer / 1 irrigation,
project 1 tillage / 95 fertilizer / 1 irrigation), the code's fertilizer
reduction is `25 × 0.005 × 20.23 = 2.52875`, not the claimed `2.523`, and
the resulting mid is `4.55175`, which is not within `0.001` of the claimed
`≈ 4.546` (it differs by `0.00575`). -/
theorem C2_counterexample :
    fertilizer_component (2023/100) exampleBaseline exampleProject ≠ 2523/1000 ∧
    (estimate_season_delta_tco2e (2023/100) "corn" exampleBaseline exampleProject).1 =
      18207/4000 ∧
    ¬ |(estimate_season_delta_tco2e (2023/100) "corn" exampleBaseline exampleProject).1 -
        4546/1000| ≤ 1/1000 := by
  obtain ⟨ht, hf, hi⟩ := example_components
  have hmid : (estimate_season_delta_tco2e (2023/100) "corn" exampleBaseline exampleProject).1 =
      18207/4000 := by
    rw [estimate_fst, ht, hf, hi]
    norm_num
  refine ⟨?_, hmid, ?_⟩
  · rw [hf]
    norm_num
  · rw [hmid]
    rw [show (18207/4000 : ℚ) - 4546/1000 = 23/4000 by norm_num]
    rw [abs_of_pos (by norm_num)]
    norm_num

/-- C2 (amended): on the worked example the estimator's components are
`tillage_reduction = 2.023`, `fertilizer_reduction = 2.52875` (not `2.523`),
`irrigation_reduction = 0`, and `mid = 4.55175` (not `≈ 4.546`). -/
theorem C2_example_values :
    tillage_component (2023/100) exampleBaseline exampleProject = 2023/1000 ∧
    fertilizer_component (2023/100) exampleBaseline exampleProject = 252875/100000 ∧
    irrigation_component (2023/100) exampleBaseline exampleProject = 0 ∧
    (estimate_season_delta_tco2e (2023/100) "corn" exampleBaseline exampleProject).1 =
      455175/100000 := by
  obtain ⟨ht, hf, hi⟩ := example_components
  refine ⟨ht, by rw [hf]; norm_num, hi, ?_⟩
  rw [estimate_fst, ht, hf, hi]
  norm_num

/-! ## Credit scorer (`app/core/score.py`) -/

/-- The dictionary returned by `compute_credit_score`: the overall score and
the five component values, each rounded to two decimal digits. -/
structure CreditScoreResult where
  carbon_credit_score_0_100 : ℚ
  data_completeness : ℚ
  reduction_potential : ℚ
  additionality : ℚ
  verification_readiness : ℚ
  uncertainty_penalty : ℚ
deriving DecidableEq

/-- `compute_credit_score` from `app/core/score.py`. -/
def compute_credit_score (annual_reduction_tco2e_mid area_ha data_quality_score : ℚ)
    (additionality_flag verification_ready : Bool) (uncertainty_pct : ℚ) : CreditScoreResult :=
  let data_component := max 0 (min 25 (data_quality_score * 25))
  let reduction_per_ha := annual_reduction_tco2e_mid / max area_ha (1/1000000000)
  let reduction_component := max 0 (min 25 (reduction_per_ha * 5))
  let additionality_component : ℚ := if additionality_flag then 20 else 6
  let verification_component : ℚ := if verification_ready then 20 else 10
  let penalty := max 0 (min 10 (uncertainty_pct * 10))
  let score := data_component + reduction_component + additionality_component +
    verification_component - penalty
  { carbon_credit_score_0_100 := rndTo 2 (max 0 (min 100 score)),
    data_completeness := rndTo 2 data_component,
    reduction_potential := rndTo 2 reduction_component,
    additionality := rndTo 2 additionality_component,
    verification_readiness := rndTo 2 verification_component,
    uncertainty_penalty := rndTo 2 penalty }

theorem rndTo_ofNat (n : ℕ) (m : ℕ) : rndTo n (m : ℚ) = m := by
  have h := rndTo_intCast n m
  push_cast at h
  exact h

theorem rndTo_clamped_le {n : ℕ} {q c : ℚ} {m : ℕ} (hq : q ≤ (m : ℚ)) (hc : c = m) :
    rndTo n q ≤ c := by
  calc rndTo n q ≤ rndTo n (m : ℚ) := rndTo_mono n hq
  _ = c := by rw [rndTo_ofNat, hc]

/-! ## Forecast engine (`app/core/forecast.py`) -/

/-- One entry of the credit forecast: the horizon in months together with
the `credits_tco2e` band `{low, mid, high}`. -/
structure ForecastEntry where
  months : ℤ
  low : ℚ
  mid : ℚ
  high : ℚ
deriving DecidableEq

/-- The band value computed for one horizon in `generate_credit_forecast`
before the final 3-digit rounding:
`annual × (months / 12)`, then `× (1 − buffer_pool_pct)`. -/
def forecastRaw (annual : ℚ) (months : ℤ) (buffer_pool_pct : ℚ) : ℚ :=
  annual * ((months : ℚ) / 12) * (1 - buffer_pool_pct)

/-- `generate_credit_forecast` from `app/core/forecast.py` (the source
rounds each band value to 3 decimal digits when building the entry). -/
def generate_credit_forecast (annual_low annual_mid annual_high : ℚ)
    (horizons_months : List ℤ) (buffer_pool_pct : ℚ) : List ForecastEntry :=
  horizons_months.map fun months =>
    { months := months,
      low := rndTo 3 (forecastRaw annual_low months buffer_pool_pct),
      mid := rndTo 3 (forecastRaw annual_mid months buffer_pool_pct),
      high := rndTo 3 (forecastRaw annual_high months buffer_pool_pct) }

/-! ## Earnings projector (`app/core/earnings.py`) -/

/-- One entry of the earnings projection: the horizon in months together
with the `net_earnings_usd` band `{low, mid, high}`. -/
structure EarningsEntry where
  months : ℤ
  low : ℚ
  mid : ℚ
  high : ℚ
deriving DecidableEq

/-- `estimate_earnings` from `app/core/earnings.py` (the source rounds each
net value to 2 decimal digits; each band is priced with its own tier). -/
def estimate_earnings (forecast : List ForecastEntry)
    (price_low price_mid price_high platform_fee_pct : ℚ) : List EarningsEntry :=
  forecast.map fun e =>
    { months := e.months,
      low := rndTo 2 (e.low * price_low * (1 - platform_fee_pct)),
      mid := rndTo 2 (e.mid * price_mid * (1 - platform_fee_pct)),
      high := rndTo 2 (e.high * price_high * (1 - platform_fee_pct)) }

/-! ## Unit normalizer (`app/services/units.py`) -/

/-- `area_to_hectares` from `app/services/units.py`; the `ValueError`
raised on an unsupported unit is modelled as `Except.error` carrying the
message. -/
def area_to_hectares (value : ℚ) (unit : String) : Except String ℚ :=
  if cleanLower unit = "ha" ∨ cleanLower unit = "hectare" ∨ cleanLower unit = "hectares" then
    .ok value
  else if cleanLower unit = "acre" ∨ cleanLower unit = "acres" then
    .ok (value * (404685642/1000000000))
  else if cleanLower unit = "sqm" ∨ cleanLower unit = "m2" ∨
      cleanLower unit = "square_meter" ∨ cleanLower unit = "square_meters" then
    .ok (value / 10000)
  else .error ("Unsupported area unit: " ++ cleanLower unit)

/-! ## Claims C3 to C6 and C9 -/

/-- C4 (counterexample).  The claim states that the scorer's
`data_completeness` equals `clamp(data_quality × 25, 0, 25)`, but the
returned dictionary rounds every component to 2 decimal digits: at
`data_quality = 0.0001` the clamp formula gives `0.0025` while the scorer
returns `0.0`. -/
theorem C4_counterexample :
    (compute_credit_score 0 1 (1/10000) true true 0).data_completeness = 0 ∧
    max 0 (min 25 ((1/10000 : ℚ) * 25)) = 1/400 ∧
    ¬ (compute_credit_score 0 1 (1/10000) true true 0).data_completeness =
      max 0 (min 25 ((1/10000 : ℚ) * 25)) := by
  have h : (compute_credit_score 0 1 (1/10000) true true 0).data_completeness = 0 := by
    show rndTo 2 (max 0 (min 25 ((1/10000 : ℚ) * 25))) = 0
    rw [show max 0 (min 25 ((1/10000 : ℚ) * 25)) = 1/400 by norm_num]
    exact rndTo_eval_lt 2 (1/400) 0 0 (by norm_num) (by norm_num) (by norm_num)
  refine ⟨h, by norm_num, ?_⟩
  rw [h]
  norm_num

/-- C4 (amended): the scorer computes each component by the claimed clamp
formula and then rounds it (and the overall score) to 2 decimal digits for
the returned dictionary; the flag components are exactly `20/6` and
`20/10`; and the rounded values still satisfy the caps: each positive
component is within its documented maximum and the overall score is always
in `[0, 100]`. -/
theorem C4_credit_score (mid area dq : ℚ) (af vf : Bool) (unc : ℚ) :
    (compute_credit_score mid area dq af vf unc).data_completeness =
      rndTo 2 (max 0 (min 25 (dq * 25))) ∧
    (compute_credit_score mid area dq af vf unc).reduction_potential =
      rndTo 2 (max 0 (min 25 (mid / max area (1/1000000000) * 5))) ∧
    (compute_credit_score mid area dq af vf unc).additionality =
      (if af then 20 else 6) ∧
    (compute_credit_score mid area dq af vf unc).verification_readiness =
      (if vf then 20 else 10) ∧
    (compute_credit_score mid area dq af vf unc).uncertainty_penalty =
      rndTo 2 (max 0 (min 10 (unc * 10))) ∧
    (compute_credit_score mid area dq af vf unc).carbon_credit_score_0_100 =
      rndTo 2 (max 0 (min 100 (max 0 (min 25 (dq * 25)) +
        max 0 (min 25 (mid / max area (1/1000000000) * 5)) +
        (if af then 20 else 6) + (if vf then 20 else 10) -
        max 0 (min 10 (unc * 10))))) ∧
    (0 ≤ (compute_credit_score mid area dq af vf unc).data_completeness ∧
      (compute_credit_score mid area dq af vf unc).data_completeness ≤ 25) ∧
    (0 ≤ (compute_credit_score mid area dq af vf unc).reduction_potential ∧
      (compute_credit_score mid area dq af vf unc).reduction_potential ≤ 25) ∧
    (0 ≤ (compute_credit_score mid area dq af vf unc).uncertainty_penalty ∧
      (compute_credit_score mid area dq af vf unc).uncertainty_penalty ≤ 10) ∧
    (0 ≤ (compute_credit_score mid area dq af vf unc).carbon_credit_score_0_100 ∧
      (compute_credit_score mid area dq af vf unc).carbon_credit_score_0_100 ≤ 100) := by
  have h20 : rndTo 2 (20 : ℚ) = 20 := by simpa using rndTo_ofNat 2 20
  have h6 : rndTo 2 (6 : ℚ) = 6 := by simpa using rndTo_ofNat 2 6
  have h10 : rndTo 2 (10 : ℚ) = 10 := by simpa using rndTo_ofNat 2 10
  refine ⟨rfl, rfl, ?_, ?_, rfl, rfl, ?_, ?_, ?_, ?_⟩
  · cases af <;> simp [compute_credit_score, h20, h6]
  · cases vf <;> simp [compute_credit_score, h20, h10]
  · exact ⟨rndTo_nonneg 2 (le_max_left _ _),
      rndTo_clamped_le (max_le (by norm_num) (min_le_left _ _)) (by norm_num)⟩
  · exact ⟨rndTo_nonneg 2 (le_max_left _ _),
      rndTo_clamped_le (max_le (by norm_num) (min_le_left _ _)) (by norm_num)⟩
  · exact ⟨rndTo_nonneg 2 (le_max_left _ _),
      rndTo_clamped_le (max_le (by norm_num) (min_le_left _ _)) (by norm_num)⟩
  · exact ⟨rndTo_nonneg 2 (le_max_left _ _),
      rndTo_clamped_le (max_le (by norm_num) (min_le_left _ _)) (by norm_num)⟩

/-- C5 (counterexample).  Forecast band values are rounded to 3 decimal
digits, so they do not equal `annual_band × (months/12) × (1 − buffer)`
exactly: with `annual = 0.0001`, one 12-month horizon and a `0.10` buffer
pool, the formula gives `0.00009` but the returned band value is `0.0`. -/
theorem C5_counterexample :
    generate_credit_forecast (1/10000) (1/10000) (1/10000) [12] (1/10) =
      [⟨12, 0, 0, 0⟩] ∧
    forecastRaw (1/10000) 12 (1/10) = 9/100000 ∧
    (generate_credit_forecast (1/10000) (1/10000) (1/10000) [12] (1/10)).map
        (fun e => e.mid) ≠ [forecastRaw (1/10000) 12 (1/10)] := by
  have h : generate_credit_forecast (1/10000) (1/10000) (1/10000) [12] (1/10) =
      [⟨12, 0, 0, 0⟩] := by
    have h0 : rndTo 3 (forecastRaw (1/10000) 12 (1/10)) = 0 := by
      rw [show forecastRaw (1/10000) 12 (1/10) = 9/100000 by norm_num [forecastRaw]]
      exact rndTo_eval_lt 3 (9/100000) 0 0 (by norm_num) (by norm_num) (by norm_num)
    simp only [generate_credit_forecast, List.map]
    rw [h0]
  refine ⟨h, by norm_num [forecastRaw], ?_⟩
  rw [h]
  norm_num [forecastRaw]

/-- C5 (amended): each forecast band value equals
`round(annual_band × (months/12) × (1 − buffer_pool_pct), 3)`; the
unrounded band value scales linearly with the horizon (doubling the months
exactly doubles it); and, for a non-negative annual value and horizon, the
rounded band value is monotonically non-increasing in `buffer_pool_pct`. -/
theorem C5_forecast_scaling (al am ah : ℚ) (hz : List ℤ) (b : ℚ) :
    (∀ e ∈ generate_credit_forecast al am ah hz b,
      e.low = rndTo 3 (forecastRaw al e.months b) ∧
      e.mid = rndTo 3 (forecastRaw am e.months b) ∧
      e.high = rndTo 3 (forecastRaw ah e.months b)) ∧
    (∀ (a : ℚ) (m : ℤ) (bp : ℚ), forecastRaw a (2 * m) bp = 2 * forecastRaw a m bp) ∧
    (∀ (a : ℚ) (m : ℤ) (b₁ b₂ : ℚ), 0 ≤ a → 0 ≤ m → b₁ ≤ b₂ →
      rndTo 3 (forecastRaw a m b₂) ≤ rndTo 3 (forecastRaw a m b₁)) := by
  refine ⟨?_, ?_, ?_⟩
  · intro e he
    simp only [generate_credit_forecast, List.mem_map] at he
    obtain ⟨m, _, rfl⟩ := he
    exact ⟨rfl, rfl, rfl⟩
  · intro a m bp
    unfold forecastRaw
    push_cast
    ring
  · intro a m b₁ b₂ ha hm hb
    apply rndTo_mono
    unfold forecastRaw
    have hm' : (0 : ℚ) ≤ (m : ℚ) := by exact_mod_cast hm
    have hx : (0 : ℚ) ≤ a * ((m : ℚ) / 12) :=
      mul_nonneg ha (div_nonneg hm' (by norm_num))
    exact mul_le_mul_of_nonneg_left (by linarith) hx

/-- C5 (witness): monotone decrease in the buffer pool at `annual = 1`,
12-month horizon, buffer `0.10` versus `0.20`. -/
theorem C5_forecast_scaling_witness :
    rndTo 3 (forecastRaw 1 12 (2/10)) ≤ rndTo 3 (forecastRaw 1 12 (1/10)) :=
  (C5_forecast_scaling 0 0 0 [] 0).2.2 1 12 (1/10) (2/10) (by norm_num) (by norm_num)
    (by norm_num)

/-- C6 (counterexample).  Net earnings bands are rounded to 2 decimal
digits, so they do not equal `credits_band × price_tier × (1 − fee)`
exactly: a forecast mid of `0.001 tCO2e` at the default prices and fee
gives `0.001 × 25 × 0.9 = 0.0225` by the formula, but the projector
returns `0.02`. -/
theorem C6_counterexample :
    estimate_earnings [⟨12, 1/1000, 1/1000, 1/1000⟩] 10 25 40 (1/10) =
      [⟨12, 1/100, 1/50, 1/25⟩] ∧
    (1/50 : ℚ) ≠ (1/1000) * 25 * (1 - 1/10) := by
  constructor
  · have h1 : rndTo 2 ((1/1000 : ℚ) * 10 * (1 - 1/10)) = 1/100 := by
      rw [show ((1/1000 : ℚ) * 10 * (1 - 1/10)) = 9/1000 by norm_num]
      exact rndTo_eval_gt 2 (9/1000) (1/100) 0 (by norm_num) (by norm_num) (by norm_num)
    have h2 : rndTo 2 ((1/1000 : ℚ) * 25 * (1 - 1/10)) = 1/50 := by
      rw [show ((1/1000 : ℚ) * 25 * (1 - 1/10)) = 9/400 by norm_num]
      exact rndTo_eval_lt 2 (9/400) (1/50) 2 (by norm_num) (by norm_num) (by norm_num)
    have h3 : rndTo 2 ((1/1000 : ℚ) * 40 * (1 - 1/10)) = 1/25 := by
      rw [show ((1/1000 : ℚ) * 40 * (1 - 1/10)) = 9/250 by norm_num]
      exact rndTo_eval_gt 2 (9/250) (1/25) 3 (by norm_num) (by norm_num) (by norm_num)
    simp only [estimate_earnings, List.map]
    rw [h1, h2, h3]
  · norm_num

/-- C6 (amended): the earnings projector computes each net band as
`round(credits_band × price_tier × (1 − platform_fee_pct), 2)`, applied
band-to-band (low uses `price_low`, mid `price_mid`, high `price_high`);
with the defaults (`price_mid = 25`, fee `0.10`) the worked example is
exact: annual mid 10 at 12 months with buffer `0.10` forecasts `9.0 tCO2e`
and yields net mid earnings of exactly `202.5` USD. -/
theorem C6_earnings (fc : List ForecastEntry) (pl pm ph fee : ℚ) :
    estimate_earnings fc pl pm ph fee = fc.map (fun e =>
      ⟨e.months, rndTo 2 (e.low * pl * (1 - fee)), rndTo 2 (e.mid * pm * (1 - fee)),
        rndTo 2 (e.high * ph * (1 - fee))⟩) ∧
    generate_credit_forecast 10 10 10 [12] (1/10) = [⟨12, 9, 9, 9⟩] ∧
    estimate_earnings [⟨12, 9, 9, 9⟩] 10 25 40 (1/10) = [⟨12, 81, 405/2, 324⟩] := by
  refine ⟨rfl, ?_, ?_⟩
  · have h9 : rndTo 3 (forecastRaw 10 12 (1/10)) = 9 := by
      rw [show forecastRaw 10 12 (1/10) = 9 by norm_num [forecastRaw]]
      exact rndTo_eval_lt 3 9 9 9000 (by norm_num) (by norm_num) (by norm_num)
    simp only [generate_credit_forecast, List.map]
    rw [h9]
  · have e1 : rndTo 2 ((9 : ℚ) * 10 * (1 - 1/10)) = 81 := by
      rw [show ((9 : ℚ) * 10 * (1 - 1/10)) = 81 by norm_num]
      exact rndTo_eval_lt 2 81 81 8100 (by norm_num) (by norm_num) (by norm_num)
    have e2 : rndTo 2 ((9 : ℚ) * 25 * (1 - 1/10)) = 405/2 := by
      rw [show ((9 : ℚ) * 25 * (1 - 1/10)) = 405/2 by norm_num]
      exact rndTo_eval_lt 2 (405/2) (405/2) 20250 (by norm_num) (by norm_num) (by norm_num)
    have e3 : rndTo 2 ((9 : ℚ) * 40 * (1 - 1/10)) = 324 := by
      rw [show ((9 : ℚ) * 40 * (1 - 1/10)) = 324 by norm_num]
      exact rndTo_eval_lt 2 324 324 32400 (by norm_num) (by norm_num) (by norm_num)
    simp only [estimate_earnings, List.map]
    rw [e1, e2, e3]

/-- C3 (confirmed): the band ordering `low ≤ mid ≤ high` holds at every
stage, after the rounding each stage applies to its output: for every
field estimate produced by the estimator (with the uncertainty
`0.40 − 0.30 × avg_data_quality` and `low` clamped at zero, all values
rounded to 6 digits as written to `estimates.csv`), for every entry of
`generate_credit_forecast` over an ordered band with non-negative horizons
and a buffer pool in `[0, 1]`, and for every entry of `estimate_earnings`
over ordered non-negative credit bands with ordered non-negative price
tiers and a fee in `[0, 1]`. -/
theorem C3_band_ordering :
    (∀ (area_ha : ℚ) (crop : String) (be pe : List MgmtEvent),
      rndTo 6 (max 0 ((estimate_season_delta_tco2e area_ha crop be pe).1 *
        (1 - (4/10 - 3/10 * ((_data_quality_score be + _data_quality_score pe) / 2))))) ≤
        rndTo 6 (estimate_season_delta_tco2e area_ha crop be pe).1 ∧
      rndTo 6 (estimate_season_delta_tco2e area_ha crop be pe).1 ≤
        rndTo 6 ((estimate_season_delta_tco2e area_ha crop be pe).1 *
          (1 + (4/10 - 3/10 * ((_data_quality_score be + _data_quality_score pe) / 2))))) ∧
    (∀ (al am ah : ℚ) (hz : List ℤ) (b : ℚ), al ≤ am → am ≤ ah → 0 ≤ b → b ≤ 1 →
      (∀ m ∈ hz, (0 : ℤ) ≤ m) →
      ∀ e ∈ generate_credit_forecast al am ah hz b, e.low ≤ e.mid ∧ e.mid ≤ e.high) ∧
    (∀ (fc : List ForecastEntry) (pl pm ph fee : ℚ), 0 ≤ pl → pl ≤ pm → pm ≤ ph →
      0 ≤ fee → fee ≤ 1 →
      (∀ e ∈ fc, 0 ≤ e.low ∧ e.low ≤ e.mid ∧ e.mid ≤ e.high) →
      ∀ o ∈ estimate_earnings fc pl pm ph fee, o.low ≤ o.mid ∧ o.mid ≤ o.high) := by
  refine ⟨?_, ?_, ?_⟩
  · intro area_ha crop be pe
    have hm0 : 0 ≤ (estimate_season_delta_tco2e area_ha crop be pe).1 :=
      estimate_fst_nonneg area_ha crop be pe
    obtain ⟨hb0, hb1⟩ := data_quality_score_mem_Icc be
    obtain ⟨hp0, hp1⟩ := data_quality_score_mem_Icc pe
    constructor
    · apply rndTo_mono
      apply max_le hm0
      nlinarith
    · apply rndTo_mono
      nlinarith
  · intro al am ah hz b h1 h2 _ hb1 hmz e he
    simp only [generate_credit_forecast, List.mem_map] at he
    obtain ⟨m, hm, rfl⟩ := he
    have hm' : (0 : ℚ) ≤ (m : ℚ) := by exact_mod_cast hmz m hm
    have hx : (0 : ℚ) ≤ (m : ℚ) / 12 := div_nonneg hm' (by norm_num)
    have hb' : (0 : ℚ) ≤ 1 - b := by linarith
    constructor
    · exact rndTo_mono 3
        (mul_le_mul_of_nonneg_right (mul_le_mul_of_nonneg_right h1 hx) hb')
    · exact rndTo_mono 3
        (mul_le_mul_of_nonneg_right (mul_le_mul_of_nonneg_right h2 hx) hb')
  · intro fc pl pm ph fee hpl hplm hpmh _ hf1 hband o ho
    simp only [estimate_earnings, List.mem_map] at ho
    obtain ⟨e, he, rfl⟩ := ho
    obtain ⟨hel, helm, hemh⟩ := hband e he
    have hfee : (0 : ℚ) ≤ 1 - fee := by linarith
    constructor
    · exact rndTo_mono 2 (mul_le_mul_of_nonneg_right
        (mul_le_mul helm hplm hpl (by linarith)) hfee)
    · exact rndTo_mono 2 (mul_le_mul_of_nonneg_right
        (mul_le_mul hemh hpmh (by linarith) (by linarith)) hfee)

/-- C3 (witness): the forecast-stage and earnings-stage orderings applied
at a concrete band `1 ≤ 2 ≤ 3`, a 12-month horizon, buffer `0.10`, the
default price tiers `10/25/40` and fee `0.10`. -/
theorem C3_band_ordering_witness :
    ((ForecastEntry.mk 12 (rndTo 3 (forecastRaw 1 12 (1/10)))
        (rndTo 3 (forecastRaw 2 12 (1/10))) (rndTo 3 (forecastRaw 3 12 (1/10)))).low ≤
      (ForecastEntry.mk 12 (rndTo 3 (forecastRaw 1 12 (1/10)))
        (rndTo 3 (forecastRaw 2 12 (1/10))) (rndTo 3 (forecastRaw 3 12 (1/10)))).mid ∧
      (ForecastEntry.mk 12 (rndTo 3 (forecastRaw 1 12 (1/10)))
        (rndTo 3 (forecastRaw 2 12 (1/10))) (rndTo 3 (forecastRaw 3 12 (1/10)))).mid ≤
      (ForecastEntry.mk 12 (rndTo 3 (forecastRaw 1 12 (1/10)))
        (rndTo 3 (forecastRaw 2 12 (1/10))) (rndTo 3 (forecastRaw 3 12 (1/10)))).high) ∧
    ((EarningsEntry.mk 12 (rndTo 2 ((1 : ℚ) * 10 * (1 - 1/10)))
        (rndTo 2 ((2 : ℚ) * 25 * (1 - 1/10))) (rndTo 2 ((3 : ℚ) * 40 * (1 - 1/10)))).low ≤
      (EarningsEntry.mk 12 (rndTo 2 ((1 : ℚ) * 10 * (1 - 1/10)))
        (rndTo 2 ((2 : ℚ) * 25 * (1 - 1/10))) (rndTo 2 ((3 : ℚ) * 40 * (1 - 1/10)))).mid ∧
      (EarningsEntry.mk 12 (rndTo 2 ((1 : ℚ) * 10 * (1 - 1/10)))
        (rndTo 2 ((2 : ℚ) * 25 * (1 - 1/10))) (rndTo 2 ((3 : ℚ) * 40 * (1 - 1/10)))).mid ≤
      (EarningsEntry.mk 12 (rndTo 2 ((1 : ℚ) * 10 * (1 - 1/10)))
        (rndTo 2 ((2 : ℚ) * 25 * (1 - 1/10))) (rndTo 2 ((3 : ℚ) * 40 * (1 - 1/10)))).high) :=
  ⟨C3_band_ordering.2.1 1 2 3 [12] (1/10) (by norm_num) (by norm_num) (by norm_num)
      (by norm_num) (by decide) _ (by simp [generate_credit_forecast]),
    C3_band_ordering.2.2 [⟨12, 1, 2, 3⟩] 10 25 40 (1/10) (by norm_num) (by norm_num)
      (by norm_num) (by norm_num) (by norm_num)
      (by
        intro e he
        rw [List.mem_singleton] at he
        subst he
        exact ⟨by norm_num, by norm_num, by norm_num⟩)
      _ (by simp [estimate_earnings])⟩

/-- C9 (confirmed): the area normalizer multiplies by `0.404685642` for the
acre spellings, by `1` for the hectare spellings, divides by `10000` for
the square-metre spellings, and fails (raises the unsupported-unit error)
exactly when the cleaned, lowercased unit is outside the accepted set; it
is a pure function of its two arguments. -/
theorem C9_area_normalizer (value : ℚ) (unit : String) :
    ((cleanLower unit = "acre" ∨ cleanLower unit = "acres") →
      area_to_hectares value unit = .ok (value * (404685642/1000000000))) ∧
    ((cleanLower unit = "ha" ∨ cleanLower unit = "hectare" ∨ cleanLower unit = "hectares") →
      area_to_hectares value unit = .ok value) ∧
    ((cleanLower unit = "sqm" ∨ cleanLower unit = "m2" ∨
        cleanLower unit = "square_meter" ∨ cleanLower unit = "square_meters") →
      area_to_hectares value unit = .ok (value / 10000)) ∧
    ((area_to_hectares value unit).isOk = true ↔
      cleanLower unit ∈ ["ha", "hectare", "hectares", "acre", "acres", "sqm", "m2",
        "square_meter", "square_meters"]) := by
  refine ⟨?_, ?_, ?_, ?_⟩
  · intro h
    rcases h with h | h <;> simp [area_to_hectares, h]
  · intro h
    rcases h with h | h | h <;> simp [area_to_hectares, h]
  · intro h
    rcases h with h | h | h | h <;> simp [area_to_hectares, h]
  · unfold area_to_hectares
    split_ifs with h1 h2 h3
    · simp only [Except.isOk, Except.toBool]
      rcases h1 with h | h | h <;> simp [h]
    · simp only [Except.isOk, Except.toBool]
      rcases h2 with h | h <;> simp [h]
    · simp only [Except.isOk, Except.toBool]
      rcases h3 with h | h | h | h <;> simp [h]
    · simp only [Except.isOk, Except.toBool]
      push_neg at h1 h2 h3
      simp [h1.1, h1.2.1, h1.2.2, h2.1, h2.2, h3.1, h3.2.1, h3.2.2.1, h3.2.2.2]

/-- C9 (witness): the theorem applied at `value = 50`, `unit = "acre"`. -/
theorem C9_area_normalizer_witness :
    area_to_hectares 50 "acre" = .ok (50 * (404685642/1000000000)) :=
  (C9_area_normalizer 50 "acre").1 (Or.inl (by decide))

/-! ## Recommendation ranker (`app/services/agent_gemini.py`) -/

/-- `_clean` from `agent_gemini.py`: `str(s).strip()`. -/
def clean (s : String) : String := pyStrip s

/-- One entry of an offer catalog (a JSON object).  Keys that the ranker
reads through `.get(key, default)` are `Option`s (`none` = key absent);
list-valued keys default to `[]` exactly as `item.get(k, []) or []` does. -/
structure CatalogItem where
  provider_name : Option String := none
  provider_category : Option String := none
  offer_type : Option String := none
  best_for : Option String := none
  apply_url : Option String := none
  contact_email : Option String := none
  requirements : List String := []
  what_to_send : List String := []
  next_steps : List String := []
  risks_and_notes : List String := []
  advance_usd_range : Option (List ℚ) := none
  apr_range : Option (List ℚ) := none
  tenor_months_range : Option (List ℚ) := none
  repayment_source : Option String := none
deriving DecidableEq

/-- One ranked offer as built by `_heuristic_rank_offers` (the nested
`estimated_terms` and `links` dictionaries are flattened into fields). -/
structure RankedOffer where
  provider_name : String
  provider_category : String
  offer_type : String
  best_for : String
  match_score_0_100 : ℤ
  why_ranked : List String
  advance_usd_range : List ℚ
  apr_range : List ℚ
  tenor_months_range : List ℚ
  repayment_source : String
  requirements : List String
  what_to_send : List String
  next_steps : List String
  risks_and_notes : List String
  apply_url : String
  contact_email : String
deriving DecidableEq

/-- `DEFAULT_OFFER_CATALOG` from `agent_gemini.py` (15 US-focused
providers). -/
def DEFAULT_OFFER_CATALOG : List CatalogItem :=
  [{ provider_name := some "CRS Credit API",
     provider_category := some "credit_data_api",
     offer_type := some "credit_report_api",
     best_for := some "Pulling borrower credit data for loan pre-qualification and underwriting workflows",
     apply_url := some "https://crscreditapi.com/",
     contact_email := some "",
     requirements := ["End-user consent", "Permissible purpose (lending)"],
     what_to_send := ["Borrower identity + consent artifact (per your compliance flow)"],
     next_steps := ["Use CRS to fetch credit attributes for underwriting (do not treat as carbon provider)"],
     risks_and_notes := ["CRS is not a carbon credit marketplace/registry; it supports lending decisions via credit data."] },
   { provider_name := some "CoBank (Farm Credit System)",
     provider_category := some "bank_lender",
     offer_type := some "ag_loan_or_sustainability_linked_credit",
     best_for := some "Ag co-ops / supply chains / larger operators seeking conservation-linked financing",
     apply_url := some "",
     contact_email := some "",
     requirements := ["Farm financials", "Practice plan", "Projected cashflow"],
     what_to_send := ["Farm summary", "Field/practice plan", "Input logs (baseline + project)"],
     next_steps := ["Ask about sustainability-linked or conservation-aligned financing options"],
     risks_and_notes := ["Terms vary by underwriting and relationship"] },
   { provider_name := some "Farm Credit (network of local associations)",
     provider_category := some "bank_lender",
     offer_type := some "ag_operating_loan_or_conservation_finance",
     best_for := some "Working capital + practice adoption financing via ag-focused lender network",
     apply_url := some "",
     contact_email := some "",
     requirements := ["Farm financials", "Practice plan"],
     what_to_send := ["Farm summary", "Practice plan", "Documentation plan for verification"],
     next_steps := ["Contact local Farm Credit association; ask about climate-smart / conservation financing"],
     risks_and_notes := ["Availability varies by region and association"] },
   { provider_name := some "Rabobank / Rabo AgriFinance (US ag finance)",
     provider_category := some "bank_lender",
     offer_type := some "ag_financing_clean_energy_or_transition",
     best_for := some "Ag operations financing; sometimes clean-energy / transition-related projects",
     apply_url := some "",
     contact_email := some "",
     requirements := ["Farm financials", "Project/practice plan"],
     what_to_send := ["Farm summary", "Practice plan + expected savings/revenue"],
     next_steps := ["Ask for financing options aligned to sustainability / transition projects"],
     risks_and_notes := ["Product offerings vary by borrower profile and region"] },
   { provider_name := some "Farmer Mac (via lenders / programs)",
     provider_category := some "bank_lender",
     offer_type := some "mortgage_liquidity_or_sustainability_incentive_program",
     best_for := some "Financing liquidity; some programs incentivize sustainable practices via partners",
     apply_url := some "",
     contact_email := some "",
     requirements := ["Typically accessed via participating lenders/partners"],
     what_to_send := ["Farm mortgage context (if applicable)", "Practice adoption proof/data sharing"],
     next_steps := ["Ask lender/partner if Farmer Mac sustainability incentives apply"],
     risks_and_notes := ["Usually not direct-to-farmer lending; often via partner channels"] },
   { provider_name := some "Indigo Ag (carbon program / credits)",
     provider_category := some "carbon_program_marketplace",
     offer_type := some "carbon_program_enrollment",
     best_for := some "Farmer enrollment + MRV + credit sales (program-managed)",
     apply_url := some "",
     contact_email := some "",
     requirements := ["Practice adoption + data sharing; verification workflow"],
     what_to_send := ["Field history", "Practice plan", "Input logs", "Evidence artifacts"],
     next_steps := ["Enroll; follow MRV steps; schedule verification"],
     risks_and_notes := ["Eligibility and crediting depends on methodology + additionality rules"] },
   { provider_name := some "Truterra (farmer sustainability program)",
     provider_category := some "carbon_program_marketplace",
     offer_type := some "sustainability_program_or_carbon_pathway",
     best_for := some "Practice planning + data workflows that may connect to credit programs",
     apply_url := some "",
     contact_email := some "",
     requirements := ["Practice plan + field data"],
     what_to_send := ["Field data + practice logs + evidence"],
     next_steps := ["Enroll; confirm whether credits are issued via a registry-backed pathway"],
     risks_and_notes := ["Program offerings vary; credits may be via partners/methodologies"] },
   { provider_name := some "Climate Action Reserve (CAR)",
     provider_category := some "carbon_registry",
     offer_type := some "registry_methodology_and_issuance",
     best_for := some "Registry-backed issuance (often via project developer/aggregator)",
     apply_url := some "",
     contact_email := some "",
     requirements := ["Methodology compliance", "Verification", "Monitoring reports"],
     what_to_send := ["Project documentation, monitoring + verification package"],
     next_steps := ["Typically join via a developer/aggregator; confirm applicable protocol"],
     risks_and_notes := ["Farmers usually participate through programs rather than direct registry interaction"] },
   { provider_name := some "American Carbon Registry (ACR)",
     provider_category := some "carbon_registry",
     offer_type := some "registry_methodology_and_issuance",
     best_for := some "Registry-backed credits via project developers/programs",
     apply_url := some "",
     contact_email := some "",
     requirements := ["Methodology + verification + monitoring"],
     what_to_send := ["Project documentation + monitoring"],
     next_steps := ["Participate through a developer/aggregator"],
     risks_and_notes := ["Direct registry interaction is uncommon for small farms"] },
   { provider_name := some "Verra (VCS)",
     provider_category := some "carbon_registry",
     offer_type := some "registry_methodology_and_issuance",
     best_for := some "Large-scale registry-backed credit issuance via developers",
     apply_url := some "",
     contact_email := some "",
     requirements := ["Methodology + verification + monitoring"],
     what_to_send := ["Project documentation + monitoring"],
     next_steps := ["Participate through a developer/aggregator"],
     risks_and_notes := ["Farmers typically join programs aligned to VCS methodologies"] },
   { provider_name := some "Gold Standard",
     provider_category := some "carbon_registry",
     offer_type := some "registry_methodology_and_issuance",
     best_for := some "High-integrity methodologies (often developer-led)",
     apply_url := some "",
     contact_email := some "",
     requirements := ["Methodology + verification + monitoring"],
     what_to_send := ["Project documentation + monitoring"],
     next_steps := ["Participate through a developer/aggregator"],
     risks_and_notes := ["Direct participation is uncommon for small farms"] },
   { provider_name := some "USDA NRCS EQIP / CSP",
     provider_category := some "public_program",
     offer_type := some "cost_share_conservation_practices",
     best_for := some "Cost-share / payments to adopt conservation practices (not always carbon credits)",
     apply_url := some "",
     contact_email := some "",
     requirements := ["Eligibility + conservation plan via NRCS"],
     what_to_send := ["Farm info", "Practice plan", "Land control documentation"],
     next_steps := ["Contact local USDA Service Center / NRCS office"],
     risks_and_notes := ["These are incentive programs; stacking rules vary by program and credit methodology"] },
   { provider_name := some "USDA FSA Conservation Loans (guaranteed via lenders)",
     provider_category := some "public_program",
     offer_type := some "conservation_loan_guarantee",
     best_for := some "Financing conservation projects via approved lenders with FSA guarantee",
     apply_url := some "",
     contact_email := some "",
     requirements := ["Conservation plan approved by NRCS; lender underwriting"],
     what_to_send := ["Conservation plan", "Farm financials", "Project budget"],
     next_steps := ["Ask your lender about FSA-guaranteed conservation loans"],
     risks_and_notes := ["Loan terms depend on lender; guarantee supports access to credit"] },
   { provider_name := some "CDFA Healthy Soils Program (California)",
     provider_category := some "public_program",
     offer_type := some "grant_incentive_for_ghg_reduction",
     best_for := some "CA growers implementing soil practices to reduce GHGs / increase soil carbon",
     apply_url := some "",
     contact_email := some "",
     requirements := ["CA eligibility + program rules"],
     what_to_send := ["Project/practice plan", "Field info", "Budget + evidence plan"],
     next_steps := ["Apply during open rounds; use technical assistance if available"],
     risks_and_notes := ["Round timing varies; not a carbon registry credit"] },
   { provider_name := some "CDFA SWEEP (California)",
     provider_category := some "public_program",
     offer_type := some "irrigation_efficiency_grant",
     best_for := some "CA irrigation upgrades that save water + reduce GHGs",
     apply_url := some "",
     contact_email := some "",
     requirements := ["CA eligibility + irrigation project scope"],
     what_to_send := ["Irrigation upgrade plan", "Budget", "Field info"],
     next_steps := ["Apply during open rounds"],
     risks_and_notes := ["Round timing varies; not a carbon registry credit"] }]

/-- One entry of the payload's `fields` list, with the two keys the
recommendation component reads. -/
structure FieldInfo where
  field_name : Option String := none
  crop_type : Option String := none
deriving DecidableEq

/-- The payload's `constraints` object. -/
structure Constraints where
  max_upfront_cost_usd : Option ℚ := none
  no_new_equipment : Bool := false
deriving DecidableEq

/-- The payload's `summary` object (`annual_reduction_mid` is the `mid`
key of its `annual_reduction_tco2e` sub-object). -/
structure Summary where
  carbon_credit_score_0_100 : Option ℚ := none
  annual_reduction_mid : Option ℚ := none
deriving DecidableEq

/-- The recommendation payload.  `offer_catalog = none` models a payload
whose `offer_catalog` key is missing or whose value is not a list (the
source treats both identically); `some []` models an empty list. -/
structure Payload where
  summary : Option Summary := none
  fields : List FieldInfo := []
  constraints : Option Constraints := none
  offer_catalog : Option (List CatalogItem) := none

/-- `summary.get("carbon_credit_score_0_100", 0.0)` coerced with
`_as_float`. -/
def payloadScore (p : Payload) : ℚ :=
  (p.summary.bind (fun s => s.carbon_credit_score_0_100)).getD 0

/-- `summary.get("annual_reduction_tco2e", {}).get("mid", 0.0)` coerced
with `_as_float`. -/
def payloadAnnualMid (p : Payload) : ℚ :=
  (p.summary.bind (fun s => s.annual_reduction_mid)).getD 0

/-- Whether `"rice"` is among the cleaned, lowercased crop types of the
payload's fields (fields with a missing or empty `crop_type` are skipped,
as in the source's set comprehension). -/
def payloadHasRice (p : Payload) : Bool :=
  p.fields.any fun f =>
    match f.crop_type with
    | some c => !(c == "") && (cleanLower c == "rice")
    | none => false

/-- The category-based `offer_type` fallback used when a catalog item has
no (or an empty) `offer_type`. -/
def defaultOfferType (cat : String) : String :=
  if cat = "carbon_program_marketplace" then "carbon_program_enrollment"
  else if cat = "bank_lender" ∨ cat = "lender" ∨ cat = "credit_union" then "financing"
  else if cat = "carbon_registry" then "registry_pathway"
  else if cat = "public_program" then "incentive_or_grant"
  else if cat = "credit_data_api" then "credit_report_api"
  else "program_support"

/-- The per-item match score (before the final `[0, 100]` clamp) and the
`why_ranked` reasons, exactly as accumulated by the category branches of
`_heuristic_rank_offers` (base score 50). -/
def offerMatchWhy (scoreV annual_mid : ℚ) (has_rice : Bool) (cat : String) : ℤ × List String :=
  if cat = "carbon_program_marketplace" then
    (50 + 15 + (if 5 ≤ annual_mid then 15 else 0) + (if has_rice then 5 else 0),
      ["Direct path to generate/sell credits via a program administrator."] ++
        ((if 5 ≤ annual_mid then
          ["Projected reductions are meaningful enough to justify enrollment effort."] else []) ++
        (if has_rice then
          ["Rice methane reductions can be material if AWD practices are adopted."] else [])))
  else if cat = "carbon_registry" then
    (50 + 8 + (if 5 ≤ annual_mid then 5 else 0),
      ["Registry pathway (usually via a developer/aggregator) for issuance/crediting."] ++
        (if 5 ≤ annual_mid then
          ["Scale may support registry-backed pathway through a program."] else []))
  else if cat = "public_program" then
    (50 + 15, ["Public programs can help finance adoption and documentation."])
  else if cat = "bank_lender" ∨ cat = "lender" ∨ cat = "credit_union" then
    (50 + (if 60 ≤ scoreV then 15 else 0) + (if 3 ≤ annual_mid then 10 else 0),
      ["Financing option to cover adoption costs or bridge cashflow."] ++
        ((if 60 ≤ scoreV then
          ["Score suggests stronger trackability/verification story."] else []) ++
        (if 3 ≤ annual_mid then
          ["Projected reductions support a climate-finance narrative."] else [])))
  else if cat = "credit_data_api" then
    (50 + 5, ["Useful for underwriting workflows (credit data), not carbon issuance."])
  else (50, ["General option included from provided catalog."])

/-- The body of the per-item loop of `_heuristic_rank_offers`: items whose
cleaned `provider_name` is empty are skipped (`none`); otherwise the ranked
offer is built with the clamped match score and the first four reasons. -/
def toRankedOffer (scoreV annual_mid : ℚ) (has_rice : Bool) (item : CatalogItem) :
    Option RankedOffer :=
  let name := clean (item.provider_name.getD "")
  if name = "" then none
  else
    let cat := pyLower (clean (item.provider_category.getD "other"))
    let ot0 := clean (item.offer_type.getD "")
    let mw := offerMatchWhy scoreV annual_mid has_rice cat
    some
      { provider_name := name,
        provider_category := cat,
        offer_type := if ot0 = "" then defaultOfferType cat else ot0,
        best_for := clean (item.best_for.getD ""),
        match_score_0_100 := max 0 (min 100 mw.1),
        why_ranked := mw.2.take 4,
        advance_usd_range := item.advance_usd_range.getD [0, 0],
        apr_range := item.apr_range.getD [0, 0],
        tenor_months_range := item.tenor_months_range.getD [0, 0],
        repayment_source := clean (item.repayment_source.getD ""),
        requirements := item.requirements,
        what_to_send := item.what_to_send,
        next_steps := item.next_steps,
        risks_and_notes := item.risks_and_notes,
        apply_url := clean (item.apply_url.getD ""),
        contact_email := clean (item.contact_email.getD "") }

/-- The `offers` object returned by the ranker. -/
structure OffersBlock where
  disclaimer : String
  ranked_offers : List RankedOffer

/-- The fixed disclaimer string of `_heuristic_rank_offers`. -/
def OFFERS_DISCLAIMER : String :=
  "These are suggested providers/programs to explore. Availability and eligibility vary by location and provider. This is not financial advice."

/-- `_heuristic_rank_offers` from `agent_gemini.py`: score every catalog
item, sort descending by match score (Python's stable sort on the
negated integer score), return the top 6. -/
def _heuristic_rank_offers (p : Payload) : OffersBlock :=
  let catalog := p.offer_catalog.getD []
  let ranked := catalog.filterMap
    (toRankedOffer (payloadScore p) (payloadAnnualMid p) (payloadHasRice p))
  let sorted := ranked.mergeSort
    (fun a b => decide (b.match_score_0_100 ≤ a.match_score_0_100))
  { disclaimer := OFFERS_DISCLAIMER, ranked_offers := sorted.take 6 }

/-- A `{low, high}` USD or tCO2e range. -/
structure LowHigh where
  low : ℚ
  high : ℚ
deriving DecidableEq

/-- A `{min, max}` months range. -/
structure MonthsRange where
  min : ℤ
  max : ℤ
deriving DecidableEq

/-- One recommended measure, as built by `_heuristic_recommendations`
(`notes` is absent unless the CAPEX filter annotates the measure; the
embedding uses `[]` for absent). -/
structure Measure where
  title : String
  why_it_helps : String
  field_names : List String
  implementation_steps : List String
  capital_required_usd : LowHigh
  annual_opex_change_usd : LowHigh
  timeline_months : MonthsRange
  expected_credit_uplift_tco2e_per_year : LowHigh
  verification_evidence : List String
  risk_level : String
  notes : List String := []
deriving DecidableEq

/-- Measure 1 of `_heuristic_recommendations`: fertilizer optimization. -/
def measure_fertilizer (field_names : List String) : Measure :=
  { title := "Split nitrogen applications + 4R nutrient management",
    why_it_helps := "Reduces N2O emissions by avoiding excess nitrogen and improving timing.",
    field_names := field_names,
    implementation_steps :=
      ["Split N into 2–3 applications aligned to crop growth stages",
       "Use soil/tissue test (optional) to prevent over-application",
       "Record dates, rates, products for verification"],
    capital_required_usd := ⟨0, 1500⟩,
    annual_opex_change_usd := ⟨-800, 200⟩,
    timeline_months := ⟨1, 3⟩,
    expected_credit_uplift_tco2e_per_year := ⟨3/10, 3/2⟩,
    verification_evidence :=
      ["fertilizer purchase receipts", "application log (dates, rates, product)",
       "soil test report (if used)"],
    risk_level := "low" }

/-- Measure 2 of `_heuristic_recommendations`: irrigation efficiency. -/
def measure_irrigation (field_names : List String) : Measure :=
  { title := "Irrigation scheduling (avoid over-watering) + optional soil moisture sensors",
    why_it_helps := "Reduces pumping energy and water use; can improve nitrogen efficiency.",
    field_names := field_names,
    implementation_steps :=
      ["Use weather + crop stage to schedule irrigation",
       "If feasible, add soil moisture sensors in representative zones",
       "Log irrigation events/runtimes"],
    capital_required_usd := ⟨0, 5000⟩,
    annual_opex_change_usd := ⟨-1500, 200⟩,
    timeline_months := ⟨1, 6⟩,
    expected_credit_uplift_tco2e_per_year := ⟨1/10, 8/10⟩,
    verification_evidence :=
      ["irrigation logs or pump runtime logs", "sensor invoices (if used)",
       "field notes on scheduling approach"],
    risk_level := "low" }

/-- Measure 3 of `_heuristic_recommendations`: reduced tillage.  With the
`no_new_equipment` constraint the CAPEX range drops from `0..8000` to
`0..500`. -/
def measure_tillage (field_names : List String) (no_new_eq : Bool) : Measure :=
  { title := "Reduce tillage passes / adopt reduced tillage where feasible",
    why_it_helps := "Cuts fuel use and can reduce soil carbon loss from disturbance.",
    field_names := field_names,
    implementation_steps :=
      ["Reduce passes (e.g., 2 → 1) and avoid unnecessary tillage",
       "Track operations (date + equipment) for verification"],
    capital_required_usd := if no_new_eq then ⟨0, 500⟩ else ⟨0, 8000⟩,
    annual_opex_change_usd := ⟨-1200, 0⟩,
    timeline_months := ⟨1, 6⟩,
    expected_credit_uplift_tco2e_per_year := ⟨2/10, 12/10⟩,
    verification_evidence :=
      ["field operation logs", "fuel receipts (optional)",
       "photos of residue/soil condition (before/after)"],
    risk_level := "medium" }

/-- Measure 4 of `_heuristic_recommendations`: rice alternate wetting and
drying, appended only when rice is among the crops. -/
def measure_rice (field_names : List String) : Measure :=
  { title := "Rice: adopt Alternate Wetting and Drying (AWD) where suitable",
    why_it_helps := "Can reduce methane emissions from continuously flooded fields.",
    field_names := field_names,
    implementation_steps :=
      ["Assess field leveling and water control structures",
       "Implement AWD cycles and record flood/dry periods",
       "Use simple water level indicators; document practice change"],
    capital_required_usd := ⟨0, 2000⟩,
    annual_opex_change_usd := ⟨-500, 500⟩,
    timeline_months := ⟨1, 12⟩,
    expected_credit_uplift_tco2e_per_year := ⟨5/10, 3⟩,
    verification_evidence :=
      ["water management logs", "photos of water level indicators",
       "field inspection notes"],
    risk_level := "medium" }

/-- `risk_order.get(risk_level, 1)` from the measure sort. -/
def risk_order (r : String) : ℤ :=
  if r = "low" then 0 else if r = "medium" then 1 else if r = "high" then 2 else 1

/-- The measure sort order: ascending risk tier, ties broken by descending
upper-bound expected uplift (Python's stable sort on the tuple
`(risk_order, -uplift_high)`). -/
def measureLe (a b : Measure) : Bool :=
  decide (risk_order a.risk_level < risk_order b.risk_level) ||
    (decide (risk_order a.risk_level = risk_order b.risk_level) &&
      decide (b.expected_credit_uplift_tco2e_per_year.high ≤
        a.expected_credit_uplift_tco2e_per_year.high))

/-- Python's `int(q)` (truncation toward zero). -/
def pyInt (q : ℚ) : ℤ := if q < 0 then -⌊-q⌋ else ⌊q⌋

/-- The full recommendation bundle returned to the pipeline. -/
structure AgentAnswer where
  recommended_measures : List Measure
  what_to_do_next : List String
  appraiser_evidence_checklist : List String
  offers : OffersBlock
  notes : List String

/-- `_heuristic_recommendations` from `agent_gemini.py`: the deterministic
fallback bundle (measures filtered by the CAPEX constraint and annotated
when their high end exceeds it, sorted by risk then uplift, top 6; fixed
next-step and evidence lists; offers ranked from the payload catalog). -/
def _heuristic_recommendations (p : Payload) : AgentAnswer :=
  let max_capex := (p.constraints.bind (fun c => c.max_upfront_cost_usd)).getD 999999
  let no_new_eq := (p.constraints.map (fun c => c.no_new_equipment)).getD false
  let field_names := p.fields.map (fun f => f.field_name.getD "Field")
  let rice_fields := (p.fields.filter
    (fun f => cleanLower (f.crop_type.getD "") == "rice")).map
    (fun f => f.field_name.getD "Rice field")
  let measures := [measure_fertilizer field_names, measure_irrigation field_names,
    measure_tillage field_names no_new_eq] ++
    (if payloadHasRice p then
      [measure_rice (if rice_fields = [] then field_names else rice_fields)] else [])
  let filtered := measures.filterMap fun m =>
    if m.capital_required_usd.low ≤ max_capex then
      some (if max_capex < m.capital_required_usd.high then
        { m with notes := ["High-end CAPEX may exceed your max_upfront_cost_usd=" ++
          toString (pyInt max_capex) ++ "."] }
      else m)
    else none
  { recommended_measures := (filtered.mergeSort measureLe).take 6,
    what_to_do_next :=
      ["Choose 1–2 measures to implement in the next 30–60 days (low risk first).",
       "Start a simple log: fertilizer applications (date, product, rate), tillage operations, irrigation events.",
       "Save receipts/invoices for any inputs or equipment changes.",
       "Schedule an appraiser visit after the first verified practice change is in place."],
    appraiser_evidence_checklist :=
      ["Confirm field boundary/area and crop type",
       "Baseline fertilizer receipts and application records (previous season)",
       "Project-season fertilizer receipts + application log (dates, rates)",
       "Tillage operation log (passes reduced) and optional fuel receipts",
       "Irrigation logs or pump runtime logs (if applicable)",
       "Photos of practice changes and field conditions"],
    offers := _heuristic_rank_offers p,
    notes :=
      ["Fallback recommendations used (Gemini not called or SDK unavailable).",
       "Capital estimates and offer terms are approximate ranges for MVP purposes."] }

/-- The `offers` object of a Gemini reply: `ranked_offers = none` models a
dictionary without that key. -/
structure GeminiOffers where
  disclaimer : String
  ranked_offers : Option (List RankedOffer)

/-- A parsed Gemini reply (the dictionary `_try_call_gemini` may return).
`recommended_measures = none` models a dictionary without that required
key; `offers = none` one without an `offers` dictionary. -/
structure GeminiOut where
  recommended_measures : Option (List Measure) := none
  what_to_do_next : List String := []
  appraiser_evidence_checklist : List String := []
  offers : Option GeminiOffers := none
  notes : List String := []

/-- `_merge_offers_if_missing` from `agent_gemini.py`, fused with reading
the reply as a bundle: a missing `offers` dictionary is replaced by the
full heuristic offers, a present one missing `ranked_offers` gets the
heuristic ranked list injected. -/
def _merge_offers_if_missing (out : GeminiOut) (p : Payload) : AgentAnswer :=
  { recommended_measures := out.recommended_measures.getD [],
    what_to_do_next := out.what_to_do_next,
    appraiser_evidence_checklist := out.appraiser_evidence_checklist,
    offers :=
      match out.offers with
      | none => _heuristic_rank_offers p
      | some go =>
        { disclaimer := go.disclaimer,
          ranked_offers := go.ranked_offers.getD ((_heuristic_rank_offers p).ranked_offers) },
    notes := out.notes }

/-- `_with_default_offer_catalog` from `agent_gemini.py`: inject
`DEFAULT_OFFER_CATALOG` when the payload's catalog is missing, not a
list, or empty. -/
def _with_default_offer_catalog (p : Payload) : Payload :=
  match p.offer_catalog with
  | some (c :: cs) => { p with offer_catalog := some (c :: cs) }
  | _ => { p with offer_catalog := some DEFAULT_OFFER_CATALOG }

/-- `get_recommendations` from `agent_gemini.py`.  The external generative
call `_try_call_gemini` (network access, SDK availability, JSON parsing) is
abstracted as the function argument `gemini`; it returns `none` whenever
the source's `_try_call_gemini` returns `None` (no API key, SDK import
failure, request exception, unparseable or non-dictionary reply). -/
def get_recommendations (gemini : Payload → Option GeminiOut) (p : Payload) : AgentAnswer :=
  let p2 := _with_default_offer_catalog p
  match gemini p2 with
  | some out =>
    if out.recommended_measures.isSome then _merge_offers_if_missing out p2
    else _heuristic_recommendations p2
  | none => _heuristic_recommendations p2

theorem toRankedOffer_name {s a : ℚ} {r : Bool} {item : CatalogItem} {o : RankedOffer}
    (h : toRankedOffer s a r item = some o) :
    o.provider_name = clean (item.provider_name.getD "") := by
  simp only [toRankedOffer] at h
  split at h
  · exact absurd h (by simp)
  · obtain rfl := Option.some.inj h
    rfl

theorem toRankedOffer_isSome (s a : ℚ) (r : Bool) (item : CatalogItem)
    (h : ¬ clean (item.provider_name.getD "") = "") :
    (toRankedOffer s a r item).isSome := by
  simp only [toRankedOffer]
  rw [if_neg h]
  rfl

theorem length_filterMap_of_isSome {α β : Type} (f : α → Option β) (l : List α)
    (h : ∀ x ∈ l, (f x).isSome) : (l.filterMap f).length = l.length := by
  induction l with
  | nil => rfl
  | cons a t ih =>
    have ha := h a (by simp)
    obtain ⟨b, hb⟩ := Option.isSome_iff_exists.mp ha
    simp [List.filterMap_cons, hb, ih (fun x hx => h x (by simp [hx]))]

theorem rank_offers_spec (p : Payload) :
    (_heuristic_rank_offers p).ranked_offers.length ≤ 6 ∧
    (_heuristic_rank_offers p).ranked_offers.Pairwise
      (fun a b => b.match_score_0_100 ≤ a.match_score_0_100) ∧
    ∀ o ∈ (_heuristic_rank_offers p).ranked_offers,
      ∃ item ∈ p.offer_catalog.getD [],
        toRankedOffer (payloadScore p) (payloadAnnualMid p) (payloadHasRice p) item =
          some o := by
  refine ⟨List.length_take_le _ _, ?_, ?_⟩
  · refine List.Pairwise.sublist (List.take_sublist _ _) ?_
    have hs : (List.mergeSort
        ((p.offer_catalog.getD []).filterMap
          (toRankedOffer (payloadScore p) (payloadAnnualMid p) (payloadHasRice p)))
        (fun a b => decide (b.match_score_0_100 ≤ a.match_score_0_100))).Pairwise
        (fun a b => decide (b.match_score_0_100 ≤ a.match_score_0_100) = true) :=
      List.sorted_mergeSort
        (by intro a b c h1 h2; simp only [decide_eq_true_eq] at h1 h2 ⊢; omega)
        (by intro a b; simp only [Bool.or_eq_true, decide_eq_true_eq]; omega) _
    exact hs.imp (fun h => by simpa using h)
  · intro o ho
    have ho' : o ∈ (List.mergeSort
        ((p.offer_catalog.getD []).filterMap
          (toRankedOffer (payloadScore p) (payloadAnnualMid p) (payloadHasRice p)))
        (fun a b => decide (b.match_score_0_100 ≤ a.match_score_0_100))).take 6 := ho
    exact List.mem_filterMap.mp (List.mem_mergeSort.mp (List.mem_of_mem_take ho'))

/-- C7 (confirmed): for every payload carrying an offer catalog, the
heuristic offer ranker returns at most 6 offers, sorted descending by
match score; every returned offer is the scoring of some item of that
catalog (so its provider name is the cleaned provider name of a catalog
entry — never fabricated) and carries exactly the match score and the
`why_ranked` reasons that `offerMatchWhy` produced for that item. -/
theorem C7_offer_ranking (p : Payload) (catalog : List CatalogItem)
    (h : p.offer_catalog = some catalog) :
    (_heuristic_rank_offers p).ranked_offers.length ≤ 6 ∧
    (_heuristic_rank_offers p).ranked_offers.Pairwise
      (fun a b => b.match_score_0_100 ≤ a.match_score_0_100) ∧
    ∀ o ∈ (_heuristic_rank_offers p).ranked_offers,
      ∃ item ∈ catalog,
        toRankedOffer (payloadScore p) (payloadAnnualMid p) (payloadHasRice p) item =
          some o ∧
        o.provider_name = clean (item.provider_name.getD "") := by
  obtain ⟨h1, h2, h3⟩ := rank_offers_spec p
  refine ⟨h1, h2, ?_⟩
  intro o ho
  obtain ⟨item, hitem, heq⟩ := h3 o ho
  rw [h] at hitem
  exact ⟨item, hitem, heq, toRankedOffer_name heq⟩

/-- A one-item catalog used to witness C7. -/
def testCatalog : List CatalogItem :=
  [{ provider_name := some "Test Provider", provider_category := some "public_program" }]

/-- A payload carrying `testCatalog`. -/
def testPayload : Payload := { offer_catalog := some testCatalog }

/-- C7 (witness): the ranking guarantees at a concrete one-item catalog. -/
theorem C7_offer_ranking_witness :
    (_heuristic_rank_offers testPayload).ranked_offers.length ≤ 6 ∧
    (_heuristic_rank_offers testPayload).ranked_offers.Pairwise
      (fun a b => b.match_score_0_100 ≤ a.match_score_0_100) ∧
    ∀ o ∈ (_heuristic_rank_offers testPayload).ranked_offers,
      ∃ item ∈ testCatalog,
        toRankedOffer (payloadScore testPayload) (payloadAnnualMid testPayload)
          (payloadHasRice testPayload) item = some o ∧
        o.provider_name = clean (item.provider_name.getD "") :=
  C7_offer_ranking testPayload testCatalog rfl

/-- C8 (confirmed): whenever the external generative call yields nothing
(`_try_call_gemini` returns `None`: service unavailable, SDK error,
unparseable or non-dictionary reply) or yields a dictionary without the
required `recommended_measures` key, `get_recommendations` returns exactly
the deterministic heuristic bundle (measures, next steps, evidence
checklist and ranked offers) for the catalog-defaulted payload; being a
total function equal to the heuristic on this path, it propagates no
external failure to the caller. -/
theorem C8_gemini_fallback (gemini : Payload → Option GeminiOut) (p : Payload)
    (h : gemini (_with_default_offer_catalog p) = none ∨
      ∃ out, gemini (_with_default_offer_catalog p) = some out ∧
        out.recommended_measures = none) :
    get_recommendations gemini p =
      _heuristic_recommendations (_with_default_offer_catalog p) := by
  rcases h with h | ⟨out, hout, hrm⟩
  · simp only [get_recommendations, h]
  · simp only [get_recommendations, hout, hrm, Option.isSome_none]
    simp

/-- C8 (witness): the fallback equation at an always-failing external call
and the empty payload. -/
theorem C8_gemini_fallback_witness :
    get_recommendations (fun _ => none) ({} : Payload) =
      _heuristic_recommendations (_with_default_offer_catalog ({} : Payload)) :=
  C8_gemini_fallback (fun _ => none) {} (Or.inl rfl)

/-- C10 (confirmed): when the payload's `offer_catalog` is missing (or not
a list) or empty, `get_recommendations` injects the built-in
`DEFAULT_OFFER_CATALOG` of 15 providers before ranking; with the external
call failing (the deterministic path), the caller still receives 6 ranked
offers, every one of them drawn from the default catalog. -/
theorem C10_default_catalog (p : Payload)
    (h : p.offer_catalog = none ∨ p.offer_catalog = some []) :
    (_with_default_offer_catalog p).offer_catalog = some DEFAULT_OFFER_CATALOG ∧
    DEFAULT_OFFER_CATALOG.length = 15 ∧
    ∀ gemini : Payload → Option GeminiOut,
      gemini (_with_default_offer_catalog p) = none →
      (get_recommendations gemini p).offers.ranked_offers.length = 6 ∧
      ∀ o ∈ (get_recommendations gemini p).offers.ranked_offers,
        ∃ item ∈ DEFAULT_OFFER_CATALOG,
          o.provider_name = clean (item.provider_name.getD "") := by
  have hdef : _with_default_offer_catalog p =
      { p with offer_catalog := some DEFAULT_OFFER_CATALOG } := by
    rcases h with h | h <;> simp [_with_default_offer_catalog, h]
  refine ⟨by rw [hdef], rfl, ?_⟩
  intro gemini hg
  have hget : get_recommendations gemini p =
      _heuristic_recommendations (_with_default_offer_catalog p) := by
    simp only [get_recommendations, hg]
  rw [hget, hdef]
  have hnames : ∀ x ∈ DEFAULT_OFFER_CATALOG, ¬ clean (x.provider_name.getD "") = "" := by
    decide
  constructor
  · have hlen : ((({ p with offer_catalog := some DEFAULT_OFFER_CATALOG} :
        Payload).offer_catalog.getD []).filterMap
        (toRankedOffer
          (payloadScore { p with offer_catalog := some DEFAULT_OFFER_CATALOG })
          (payloadAnnualMid { p with offer_catalog := some DEFAULT_OFFER_CATALOG })
          (payloadHasRice { p with offer_catalog := some DEFAULT_OFFER_CATALOG }))).length =
        15 := by
      rw [show (({ p with offer_catalog := some DEFAULT_OFFER_CATALOG} :
          Payload).offer_catalog.getD []) = DEFAULT_OFFER_CATALOG from rfl]
      rw [length_filterMap_of_isSome]
      · rfl
      · intro x hx
        exact toRankedOffer_isSome _ _ _ x (hnames x hx)
    show ((List.mergeSort _ _).take 6).length = 6
    rw [List.length_take, List.length_mergeSort, hlen]
    decide
  · intro o ho
    obtain ⟨item, hitem, heq⟩ :=
      (rank_offers_spec { p with offer_catalog := some DEFAULT_OFFER_CATALOG }).2.2 o ho
    exact ⟨item, hitem, toRankedOffer_name heq⟩

/-- C10 (witness): the default catalog injection and the 6 ranked offers
at the empty payload with an always-failing external call. -/
theorem C10_default_catalog_witness :
    (_with_default_offer_catalog ({} : Payload)).offer_catalog =
      some DEFAULT_OFFER_CATALOG ∧
    (get_recommendations (fun _ => none) ({} : Payload)).offers.ranked_offers.length = 6 :=
  ⟨(C10_default_catalog {} (Or.inl rfl)).1,
    ((C10_default_catalog {} (Or.inl rfl)).2.2 (fun _ => none) rfl).1⟩

end TerraFin
